import Mathlib

/-!
Verification of the MTA server updater (`src/updater.py`) against its
natural-language specification. The Python source is shallowly embedded:
the platform lookup tables, the HTML listing search of `fetch_exe_url`,
`download_file`, the tar.gz branch of `extract_files`, `update_server`,
`log_update`, `delete_folder`, `clear_folder`, and the `__main__` control
flow are each translated into executable Lean definitions, and the spec
claims are proved or refuted about those definitions.
-/

namespace Updater

/-! Platform matrix (updater.py lines 28-104).

The three nested dictionaries `BUILD_STRINGS`, `EXEC_FILE_NAMES` and
`SERVER_BINARIES_LOCATIONS` are keyed by architecture, OS family and bit
width. In `BUILD_STRINGS` every key is present and the arm/Windows/32
entry holds the value `False` (embedded as `none`); in the other two
tables the arm/Windows/32 key is absent altogether (also `none`, but a
lookup of an absent key in Python would raise `KeyError`, which the
embedding distinguishes via `SetupErr.keyError`). -/

inductive Arch where
  | arm
  | x86
deriving DecidableEq

inductive OSFam where
  | windows
  | linux
deriving DecidableEq

inductive Bits where
  | b32
  | b64
deriving DecidableEq

def BUILD_STRINGS : Arch → OSFam → Bits → Option String
  | .arm, .windows, .b64 => some "Windows arm64 server"
  | .arm, .windows, .b32 => none
  | .arm, .linux,   .b64 => some "Linux arm64 server"
  | .arm, .linux,   .b32 => some "Linux arm server"
  | .x86, .windows, .b64 => some "Windows 64 bit server"
  | .x86, .windows, .b32 => some "Windows nightly installer (Win10+)"
  | .x86, .linux,   .b64 => some "Linux 64 bit server"
  | .x86, .linux,   .b32 => some "Linux 32 bit server"

def EXEC_FILE_NAMES : Arch → OSFam → Bits → Option String
  | .arm, .windows, .b64 => some "MTA Server ARM64.exe"
  | .arm, .windows, .b32 => none
  | .arm, .linux,   .b64 => some "mta-server-arm64"
  | .arm, .linux,   .b32 => some "mta-server-arm"
  | .x86, .windows, .b64 => some "MTA Server64.exe"
  | .x86, .windows, .b32 => some "MTA Server.exe"
  | .x86, .linux,   .b64 => some "mta-server64"
  | .x86, .linux,   .b32 => some "mta-server"

def SERVER_BINARIES_LOCATIONS : Arch → OSFam → Bits → Option String
  | .arm, .windows, .b64 => some "arm64"
  | .arm, .windows, .b32 => none
  | .arm, .linux,   .b64 => some "arm64"
  | .arm, .linux,   .b32 => some "arm"
  | .x86, .windows, .b64 => some "x64"
  | .x86, .windows, .b32 => some "./"
  | .x86, .linux,   .b64 => some "x64"
  | .x86, .linux,   .b32 => some "./"

structure PlatformProfile where
  artifactLabel : String
  executableName : String
  libraryRelativePath : String
deriving DecidableEq

inductive SetupErr where
  | notSupported
  | keyError
deriving DecidableEq

/-- Platform resolution, in the evaluation order of updater.py lines
55-104: `BUILD_STRING` is looked up first and, when falsy, the script
prints the incompatibility message and calls `exit(1)`
(`SetupErr.notSupported`) before the `EXEC_FILE_NAMES` and
`SERVER_BINARIES_LOCATIONS` lookups are ever reached; an absent key in
those later tables would raise `KeyError`. -/
def resolvePlatform (a : Arch) (o : OSFam) (b : Bits) :
    Except SetupErr PlatformProfile :=
  match BUILD_STRINGS a o b with
  | none => .error .notSupported
  | some bs =>
    match EXEC_FILE_NAMES a o b with
    | none => .error .keyError
    | some en =>
      match SERVER_BINARIES_LOCATIONS a o b with
      | none => .error .keyError
      | some loc => .ok { artifactLabel := bs, executableName := en,
                          libraryRelativePath := loc }

def profileComplete : Except SetupErr PlatformProfile → Bool
  | .ok p => !(p.artifactLabel = "") && !(p.executableName = "")
      && !(p.libraryRelativePath = "")
  | .error _ => false

/-! Top-level control flow (updater.py lines 224-263).

The body of `__main__` sits inside `try: ... except Exception as e:
print(traceback.format_exc())`. The explicit `exit(1)` calls raise
`SystemExit`, which is not an `Exception` subclass and therefore passes
through the handler, terminating the process with the given code. Any
other exception is caught, its full traceback is printed, and control
falls off the end of the script: the process then terminates with exit
code 0. -/

inductive BodyOutcome where
  | normal
  | sysExit (code : Nat)
  | exc (detail : String)
deriving DecidableEq

structure TopResult where
  exitCode : Nat
  printedTraceback : Option String
deriving DecidableEq

def topLevelMain : BodyOutcome → TopResult
  | .normal => { exitCode := 0, printedTraceback := none }
  | .sysExit c => { exitCode := c, printedTraceback := none }
  | .exc d => { exitCode := 0, printedTraceback := some d }

/-! Listing page search (`fetch_exe_url`, updater.py lines 122-145).

The parsed listing page is embedded as a sequence of the elements the
search ever inspects: `td` cells carrying their exact text, and `table`
elements carrying their `tr` rows. Each row carries its class list, its
optional inline `style` attribute, and the hrefs of its `a` children in
document order. The four BeautifulSoup steps are:
`soup.find(td, string=BUILD_STRING)`, `td.find_next(table)`,
`table.find(tr, class_=file, style=lambda x: x is None)` and
`tr.find(a)`; each returns `None` on failure, and the Python code
dereferences that `None` unguarded, raising `AttributeError` (or
`TypeError` for the final `a[href]` subscript of `None`). -/

structure Tr where
  classes : List String
  style : Option String
  links : List String
deriving DecidableEq

inductive Node where
  | td (text : String)
  | table (rows : List Tr)
deriving DecidableEq

inductive PyErr where
  | attributeError
  | typeError
deriving DecidableEq

/-- Step `soup.find(td, string=s)`: the document suffix strictly after
the first `td` element whose exact text equals `s`, or `none` when no
such cell exists. -/
def findTdSuffix : List Node → String → Option (List Node)
  | [], _ => none
  | .td t :: rest, s => if t = s then some rest else findTdSuffix rest s
  | .table _ :: rest, s => findTdSuffix rest s

/-- Step `td.find_next(table)`: the rows of the first `table` element in
the remaining document order. -/
def findNextTable : List Node → Option (List Tr)
  | [] => none
  | .table rows :: _ => some rows
  | .td _ :: rest => findNextTable rest

/-- Whether a row satisfies `class_=file, style=lambda x: x is None`:
it carries the class `file` and has no inline `style` attribute at all. -/
def isVisibleFileRow (r : Tr) : Bool :=
  r.classes.contains "file" && r.style.isNone

/-- Step `table.find(tr, class_=file, style=lambda x: x is None)`: the
first row of the table carrying class `file` and no `style` attribute. -/
def findFileTr (rows : List Tr) : Option Tr :=
  rows.find? isVisibleFileRow

/-- The document-processing part of `fetch_exe_url` (the HTTP fetch of
the listing page is environment input): each missing structural element
makes the Python code dereference `None` and raise. On success the result
is the base URL concatenated with the href of the first link of the
selected row (the f-string at line 142). -/
def fetch_exe_url (doc : List Node) (buildString base : String) :
    Except PyErr String :=
  match findTdSuffix doc buildString with
  | none => .error .attributeError
  | some rest =>
    match findNextTable rest with
    | none => .error .attributeError
    | some rows =>
      match findFileTr rows with
      | none => .error .attributeError
      | some tr =>
        match tr.links with
        | [] => .error .typeError
        | href :: _ => .ok (base ++ href)

/-! Directory trees (`extract_files` tar.gz branch, `clear_folder`,
`delete_folder`; updater.py lines 162-180 and 214-222).

A directory is a list of entries in `os.listdir` order, which for a
freshly populated directory is the insertion order. -/

inductive FsEntry where
  | file (name content : String)
  | dir (name : String) (children : List FsEntry)

def FsEntry.entryName : FsEntry → String
  | .file n _ => n
  | .dir n _ => n

/-- The effect of `os.rename(extracted_folder, os.path.join(dest_folder,
server))` on a single directory entry: the entry keeps its contents and
takes the new name. -/
def FsEntry.renameTo : FsEntry → String → FsEntry
  | .file _ c, n => .file n c
  | .dir _ ch, n => .dir n ch

inductive ExtractErr where
  | indexError
deriving DecidableEq

/-- The `.tar.gz` branch of `extract_files` (updater.py lines 171-177):
`tar.extractall(dest_folder)` adds the top-level archive entries to the
destination directory, then `os.listdir(dest_folder)[0]` picks the first
entry of the resulting listing (an empty listing would raise
`IndexError`) and `os.rename` gives it the canonical name `server`. -/
def extract_files_targz (dest archive : List FsEntry) :
    Except ExtractErr (List FsEntry) :=
  match dest ++ archive with
  | [] => .error .indexError
  | e :: rest => .ok (e.renameTo "server" :: rest)

/-- The `os.walk` loop of `clear_folder` (updater.py lines 220-222):
every file is removed at every depth; directories are never removed. -/
def clear_folder_tree : List FsEntry → List FsEntry
  | [] => []
  | .file _ _ :: rest => clear_folder_tree rest
  | .dir n ch :: rest => .dir n (clear_folder_tree ch) :: clear_folder_tree rest

def countFiles : List FsEntry → Nat
  | [] => 0
  | .file _ _ :: rest => 1 + countFiles rest
  | .dir _ ch :: rest => countFiles ch + countFiles rest

/-- The tree of directories only, with all files dropped: the invariant
part of a directory listing under `clear_folder`. -/
def dirSkeleton : List FsEntry → List FsEntry
  | [] => []
  | .file _ _ :: rest => dirSkeleton rest
  | .dir n ch :: rest => .dir n (dirSkeleton ch) :: dirSkeleton rest

/-- What the filesystem holds at the path handed to `delete_folder` or
`clear_folder`: nothing, a plain file, or a directory. -/
def isDirNode : Option FsEntry → Bool
  | some (.dir _ _) => true
  | _ => false

/-- Embedding of `delete_folder` (updater.py lines 214-216): only when
the path exists and is a directory is `shutil.rmtree` called; otherwise
nothing happens. -/
def delete_folder : Option FsEntry → Option FsEntry
  | some (.dir _ _) => none
  | other => other

/-- Embedding of `clear_folder` (updater.py lines 218-222): only when the
path exists and is a directory does the `os.walk` file-removal loop run;
otherwise nothing happens. -/
def clear_folder : Option FsEntry → Option FsEntry
  | some (.dir n ch) => some (.dir n (clear_folder_tree ch))
  | other => other

/-! Installer (`update_server`, updater.py lines 182-204).

The live target directory is embedded as a partial map from paths
(segment lists relative to `server_folder`) to file contents; directories
are implicit in the paths. The extracted source side is the entry tree of
`updateinfo/server`. -/

abbrev Path := List String

abbrev FS := Path → Option String

def fsWrite (fs : FS) (p : Path) (c : String) : FS :=
  fun q => if q = p then some c else fs q

/-- The guarded removal `if os.path.exists(dest_server_exe):
os.remove(dest_server_exe)` (updater.py lines 202-203). -/
def fsRemoveIfExists (fs : FS) (p : Path) : FS :=
  if (fs p).isSome then fun q => if q = p then none else fs q else fs

/-- The set of (relative directory, file name, content) triples that
`os.walk(binaries_folder)` visits beneath a directory tree. -/
def walkFiles : List FsEntry → List (Path × String × String)
  | [] => []
  | .file n c :: rest => ([], n, c) :: walkFiles rest
  | .dir d ch :: rest =>
      (walkFiles ch).map (fun f => (d :: f.1, f.2.1, f.2.2)) ++ walkFiles rest

/-- Embedding of Python str.endswith: the suffix test, on the character
sequences. -/
def pyEndsWith (s suffix : String) : Bool :=
  suffix.data.isSuffixOf s.data

/-- The filter `file.endswith((.dll, .so))` (updater.py line 192). -/
def isLibFile (n : String) : Bool :=
  pyEndsWith n ".dll" || pyEndsWith n ".so"

inductive InstallErr where
  | fileNotFound
deriving DecidableEq

/-- The library-copy loop of `update_server` (updater.py lines 187-198):
every walked file whose name ends in `.dll` or `.so` is copied to the
mirrored relative path under `server_folder/SERVER_BINARIES_LOCATION`
(`shutil.copy2` overwrites); all other walked files are skipped. -/
def copyLibs (target : FS) (destBin : Path)
    (files : List (Path × String × String)) : FS :=
  files.foldl (fun acc f =>
    if isLibFile f.2.1 then fsWrite acc (destBin ++ f.1 ++ [f.2.1]) f.2.2
    else acc) target

/-- Embedding of `update_server` (updater.py lines 182-204): copy the
`.dll`/`.so` files from `updateinfo/server/<SERVER_BINARIES_LOCATION>`
into `server_folder/<SERVER_BINARIES_LOCATION>`, then remove any
pre-existing executable at `server_folder/<EXEC_FILE_NAME>` and copy the
new one there (`shutil.copy2` of a missing source executable raises
`FileNotFoundError`). -/
def update_server (binLoc exeName : String) (srcBin : List FsEntry)
    (srcExe : Option String) (target : FS) : Except InstallErr FS :=
  let fs1 := copyLibs target [binLoc] (walkFiles srcBin)
  match srcExe with
  | none => .error .fileNotFound
  | some c => .ok (fsWrite (fsRemoveIfExists fs1 [exeName]) [exeName] c)

/-! Pipeline control flow (`__main__` body, updater.py lines 243-258).

The steps after the server folder is fixed, in source order:
`fetch_exe_url`, `prepare_updateinfo_folder`, `clear_folder`,
`download_file`, `extract_files`, `update_server`, `log_update`,
`delete_folder`. Network status, I/O faults and extraction faults are
environment inputs; the world tracks the existence of the staging
directory
and the lines of `updates.log`. -/

/-- The Python expression `url.split(/)[-1]` (updater.py lines 154 and
207). -/
def lastSegment (url : String) : String :=
  (url.splitOn "/").getLastD ""

/-- The line `log_update` appends (updater.py line 212), with `now` the
strftime rendering `%Y-%m-%d %H:%M:%S` of the current time. -/
def logLine (now fname : String) : String :=
  now ++ " - Server updated with " ++ fname ++ " | Python MTA Server Updater"

inductive StageErr where
  | downloadHTTPError
  | downloadIOError
  | extractError
  | installError
deriving DecidableEq

/-- Embedding of `download_file` (updater.py lines 153-160):
`r.raise_for_status()` raises `HTTPError` for any status in the 4xx/5xx
error classes; a transport or disk fault while streaming raises an
`OSError`; otherwise the streamed chunks are written and the local file
name, taken from the final URL segment, is returned. -/
def download_file (status : Nat) (ioFails : Bool) (url : String) :
    Except StageErr String :=
  if 400 ≤ status then .error .downloadHTTPError
  else if ioFails then .error .downloadIOError
  else .ok (lastSegment url)

structure Env where
  artifactUrl : String
  downloadStatus : Nat
  downloadIOFails : Bool
  extractFails : Bool
  installFails : Bool
  now : String

structure World where
  updateinfoExists : Bool
  logLines : List String
deriving DecidableEq

structure RunTrace where
  world : World
  extractRan : Bool
  result : Option StageErr

/-- The pipeline of `__main__` (updater.py lines 243-258) from the point
where the listing URL is known: `prepare_updateinfo_folder` creates the
staging directory, a failing download or extraction or install aborts the
run with nothing further executed, and only after `update_server`
succeeds does `log_update` append its line and `delete_folder` remove the
staging directory. -/
def runPipeline (env : Env) (w : World) : RunTrace :=
  let w1 : World := { w with updateinfoExists := true }
  match download_file env.downloadStatus env.downloadIOFails env.artifactUrl with
  | .error e => { world := w1, extractRan := false, result := some e }
  | .ok fname =>
    if env.extractFails then
      { world := w1, extractRan := true, result := some .extractError }
    else if env.installFails then
      { world := w1, extractRan := true, result := some .installError }
    else
      let w2 : World :=
        { w1 with logLines := w1.logLines ++ [logLine env.now fname] }
      let w3 : World := { w2 with updateinfoExists := false }
      { world := w3, extractRan := true, result := none }

/-- A concrete pre-install target directory: an old library under `x64`,
an old executable, and an unrelated `config.xml`. -/
def sampleTarget : FS := fun p =>
  if p = ["x64", "a.so"] then some "OLDLIB"
  else if p = ["mta-server64"] then some "OLDEXE"
  else if p = ["config.xml"] then some "CFG"
  else none

/-- A concrete environment in which every step succeeds. -/
def envSuccess : Env :=
  { artifactUrl := "https://nightly.multitheftauto.com/mtasa.tar.gz",
    downloadStatus := 200, downloadIOFails := false,
    extractFails := false, installFails := false,
    now := "2024-10-10 12:00:00" }

/-- A concrete environment in which extraction fails. -/
def envExtractFail : Env :=
  { envSuccess with extractFails := true }

/-- A concrete environment in which the artifact download gets HTTP
status 404. -/
def envDownload404 : Env :=
  { envSuccess with downloadStatus := 404 }

/-- A concrete starting world: staging directory absent, empty log. -/
def world0 : World := { updateinfoExists := false, logLines := [] }

end Updater

namespace Updater

theorem countFiles_clear_folder_tree (l : List FsEntry) :
    countFiles (clear_folder_tree l) = 0 := by
  induction l using clear_folder_tree.induct with
  | case1 => simp [clear_folder_tree, countFiles]
  | case2 _ _ rest ih => simpa [clear_folder_tree] using ih
  | case3 n ch rest ih1 ih2 =>
    simp [clear_folder_tree, countFiles, ih1, ih2]

theorem dirSkeleton_clear_folder_tree (l : List FsEntry) :
    dirSkeleton (clear_folder_tree l) = dirSkeleton l := by
  induction l using clear_folder_tree.induct with
  | case1 => simp [clear_folder_tree]
  | case2 _ _ rest ih => simpa [clear_folder_tree, dirSkeleton] using ih
  | case3 n ch rest ih1 ih2 =>
    simp [clear_folder_tree, dirSkeleton, ih1, ih2]

theorem fsWrite_same (fs : FS) (p : Path) (c : String) :
    fsWrite fs p c p = some c := by
  simp [fsWrite]

theorem fsWrite_other (fs : FS) (p q : Path) (c : String) (h : q ≠ p) :
    fsWrite fs p c q = fs q := by
  simp [fsWrite, h]

theorem fsRemoveIfExists_other (fs : FS) (p q : Path) (h : q ≠ p) :
    fsRemoveIfExists fs p q = fs q := by
  unfold fsRemoveIfExists
  split <;> simp [h]

/-- C5: for every platform combination whose `BUILD_STRINGS` entry holds
an artifact label, resolution yields a complete profile whose artifact
label, executable name and library relative path are all non-empty; and
for the known-undefined combination 32-bit ARM on Windows the outcome is
the distinguishable terminal `notSupported` condition, not a missing-key
(`KeyError`) crash. -/
theorem C5_platform_matrix :
    (∀ a o b, (BUILD_STRINGS a o b).isSome = true →
      profileComplete (resolvePlatform a o b) = true) ∧
    resolvePlatform .arm .windows .b32 = .error .notSupported := by
  constructor
  · intro a o b h
    cases a <;> cases o <;> cases b <;> simp_all [BUILD_STRINGS] <;> decide
  · rfl

/-- C5 witness: the theorem instantiated at the concrete combination
x86/Linux/64-bit, whose build string is defined. -/
theorem C5_platform_matrix_witness :
    (BUILD_STRINGS .x86 .linux .b64).isSome = true ∧
    profileComplete (resolvePlatform .x86 .linux .b64) = true :=
  ⟨by decide, C5_platform_matrix.1 .x86 .linux .b64 (by decide)⟩

/-- C1 counterexample: an exception reaching the top-level handler is
reported (the traceback is printed) but the process exits with code 0, so
the claimed non-zero exit code is false at this concrete input. -/
theorem C1_counterexample :
    ¬ ((topLevelMain (.exc "boom")).printedTraceback = some "boom" ∧
       (topLevelMain (.exc "boom")).exitCode ≠ 0) := by
  decide

/-- C1 (amended): every exception reaching the top-level handler is
reported with its originating fault detail, but the process exits with
code 0; a non-zero exit code arises only from the explicit `exit` calls
for classified setup failures, whose `SystemExit` bypasses the
`except Exception` handler. -/
theorem C1_top_level_handler :
    (∀ d, topLevelMain (.exc d)
        = { exitCode := 0, printedTraceback := some d }) ∧
    (∀ c, topLevelMain (.sysExit c)
        = { exitCode := c, printedTraceback := none }) :=
  ⟨fun _ => rfl, fun _ => rfl⟩

/-- C2 counterexample: on the concrete listing document consisting of a
single table and no cell at all matching the label, `fetch_exe_url`
raises an `AttributeError` (the `None` returned by `soup.find` is
dereferenced by `.find_next`); it does not return a handled `NotFound`
outcome. -/
theorem C2_counterexample :
    fetch_exe_url [.table []] "Linux 64 bit server"
        "https://nightly.multitheftauto.com/"
      = .error .attributeError := rfl

/-- C2 (amended): for every listing document on which any of the four
lookup steps fails — no table-cell element whose exact text equals the
platform artifact label, no sibling table after that cell, no visible
`file` row in that table, or no link in the selected row —
`fetch_exe_url` raises an unhandled fault that propagates to the caller
(the top-level handler): an `AttributeError` for the first three
families, a `TypeError` for the missing link; no distinct `NotFound`
value is returned to the caller. -/
theorem C2_missing_step_raises (doc : List Node) (buildString base : String) :
    (findTdSuffix doc buildString = none →
      fetch_exe_url doc buildString base = .error .attributeError) ∧
    (∀ rest, findTdSuffix doc buildString = some rest →
      findNextTable rest = none →
      fetch_exe_url doc buildString base = .error .attributeError) ∧
    (∀ rest rows, findTdSuffix doc buildString = some rest →
      findNextTable rest = some rows → findFileTr rows = none →
      fetch_exe_url doc buildString base = .error .attributeError) ∧
    (∀ rest rows tr, findTdSuffix doc buildString = some rest →
      findNextTable rest = some rows → findFileTr rows = some tr →
      tr.links = [] →
      fetch_exe_url doc buildString base = .error .typeError) := by
  refine ⟨fun h1 => ?_, fun rest h1 h2 => ?_, fun rest rows h1 h2 h3 => ?_,
    fun rest rows tr h1 h2 h3 h4 => ?_⟩
  · simp [fetch_exe_url, h1]
  · simp [fetch_exe_url, h1, h2]
  · simp [fetch_exe_url, h1, h2, h3]
  · simp [fetch_exe_url, h1, h2, h3, h4]

/-- C2 witness: the amended theorem applied to four concrete documents,
one per failure family — an empty document (no matching cell), a lone
cell with no table after it, a table holding only a hidden `file` row (no
visible row), and a table whose visible `file` row holds no link. -/
theorem C2_missing_step_raises_witness :
    (findTdSuffix [] "Linux 64 bit server" = none ∧
      fetch_exe_url [] "Linux 64 bit server"
          "https://nightly.multitheftauto.com/"
        = .error .attributeError) ∧
    (findTdSuffix [.td "Linux 64 bit server"] "Linux 64 bit server"
        = some [] ∧
      findNextTable [] = none ∧
      fetch_exe_url [.td "Linux 64 bit server"] "Linux 64 bit server"
          "https://nightly.multitheftauto.com/"
        = .error .attributeError) ∧
    (findTdSuffix
        [.td "Linux 64 bit server",
         .table [⟨["file"], some "display: none", ["old.tar.gz"]⟩]]
        "Linux 64 bit server"
        = some [.table [⟨["file"], some "display: none", ["old.tar.gz"]⟩]] ∧
      findNextTable [.table [⟨["file"], some "display: none", ["old.tar.gz"]⟩]]
        = some [⟨["file"], some "display: none", ["old.tar.gz"]⟩] ∧
      findFileTr [⟨["file"], some "display: none", ["old.tar.gz"]⟩] = none ∧
      fetch_exe_url
          [.td "Linux 64 bit server",
           .table [⟨["file"], some "display: none", ["old.tar.gz"]⟩]]
          "Linux 64 bit server" "https://nightly.multitheftauto.com/"
        = .error .attributeError) ∧
    (findTdSuffix
        [.td "Linux 64 bit server", .table [⟨["file"], none, []⟩]]
        "Linux 64 bit server"
        = some [.table [⟨["file"], none, []⟩]] ∧
      findNextTable [.table [⟨["file"], none, []⟩]]
        = some [⟨["file"], none, []⟩] ∧
      findFileTr [⟨["file"], none, []⟩] = some ⟨["file"], none, []⟩ ∧
      (⟨["file"], none, []⟩ : Tr).links = [] ∧
      fetch_exe_url
          [.td "Linux 64 bit server", .table [⟨["file"], none, []⟩]]
          "Linux 64 bit server" "https://nightly.multitheftauto.com/"
        = .error .typeError) :=
  ⟨⟨rfl, (C2_missing_step_raises [] "Linux 64 bit server"
      "https://nightly.multitheftauto.com/").1 rfl⟩,
   ⟨rfl, rfl, (C2_missing_step_raises [.td "Linux 64 bit server"]
      "Linux 64 bit server"
      "https://nightly.multitheftauto.com/").2.1 [] rfl rfl⟩,
   ⟨rfl, rfl, rfl, (C2_missing_step_raises
      [.td "Linux 64 bit server",
       .table [⟨["file"], some "display: none", ["old.tar.gz"]⟩]]
      "Linux 64 bit server"
      "https://nightly.multitheftauto.com/").2.2.1
      [.table [⟨["file"], some "display: none", ["old.tar.gz"]⟩]]
      [⟨["file"], some "display: none", ["old.tar.gz"]⟩] rfl rfl rfl⟩,
   ⟨rfl, rfl, rfl, rfl, (C2_missing_step_raises
      [.td "Linux 64 bit server", .table [⟨["file"], none, []⟩]]
      "Linux 64 bit server"
      "https://nightly.multitheftauto.com/").2.2.2
      [.table [⟨["file"], none, []⟩]] [⟨["file"], none, []⟩]
      ⟨["file"], none, []⟩ rfl rfl rfl rfl⟩⟩

/-- C6: for every listing document made of the label cell followed by its
builds table that contains, in either order, one hidden `file` row (an
inline style attribute is present, e.g. a do-not-display style) and one
visible `file` row (no style attribute), `fetch_exe_url` selects the
first link of the visible row — never the link of the hidden row. -/
theorem C6_visible_row_selected (label base st href : String) (h v : Tr)
    (rows : List Tr)
    (horder : rows = [h, v] ∨ rows = [v, h])
    (hfile : h.classes.contains "file" = true)
    (hstyle : h.style = some st)
    (vfile : v.classes.contains "file" = true)
    (vstyle : v.style = none)
    (vlink : href ∈ v.links.head?) :
    fetch_exe_url [.td label, .table rows] label base = .ok (base ++ href) := by
  have hvis : isVisibleFileRow v = true := by
    unfold isVisibleFileRow
    rw [vfile, vstyle]
    rfl
  have hhid : isVisibleFileRow h = false := by
    unfold isVisibleFileRow
    rw [hstyle]
    simp
  obtain ⟨l, tl, hl⟩ : ∃ l tl, v.links = l :: tl ∧ l = href := by
    cases hv : v.links with
    | nil => rw [hv] at vlink; simp [List.head?] at vlink
    | cons a as =>
      rw [hv] at vlink; simp [List.head?] at vlink
      exact ⟨a, as, rfl, vlink⟩
  cases horder with
  | inl hr =>
    subst hr
    simp [fetch_exe_url, findTdSuffix, findNextTable, findFileTr,
      List.find?, hhid, hvis, hl.1, hl.2]
  | inr hr =>
    subst hr
    simp [fetch_exe_url, findTdSuffix, findNextTable, findFileTr,
      List.find?, hvis, hl.1, hl.2]

/-- C6 witness: the theorem applied to a concrete two-row table whose
hidden row carries the do-not-display style and whose visible row carries
the latest build link. -/
theorem C6_visible_row_selected_witness :
    fetch_exe_url
      [.td "Linux 64 bit server",
       .table [⟨["file"], some "display: none", ["old.tar.gz"]⟩,
               ⟨["file"], none, ["new.tar.gz"]⟩]]
      "Linux 64 bit server" "https://nightly.multitheftauto.com/"
      = .ok ("https://nightly.multitheftauto.com/" ++ "new.tar.gz") :=
  C6_visible_row_selected "Linux 64 bit server"
    "https://nightly.multitheftauto.com/" "display: none" "new.tar.gz"
    ⟨["file"], some "display: none", ["old.tar.gz"]⟩
    ⟨["file"], none, ["new.tar.gz"]⟩ _
    (Or.inl rfl) rfl rfl rfl rfl rfl

/-- C9: clearing an existing staging directory, whatever nested
subdirectories with files it holds, leaves the directory itself present
under its own name, with zero files remaining anywhere beneath it, while
the subdirectory structure is preserved. -/
theorem C9_clear_folder (n : String) (ch : List FsEntry) :
    ∃ ch2, clear_folder (some (.dir n ch)) = some (.dir n ch2) ∧
      countFiles ch2 = 0 ∧ dirSkeleton ch2 = dirSkeleton ch :=
  ⟨clear_folder_tree ch, rfl, countFiles_clear_folder_tree ch,
    dirSkeleton_clear_folder_tree ch⟩

/-- C10: on a path that does not exist or is not a directory,
`delete_folder` and `clear_folder` take only their guard branch: the
filesystem node is returned unchanged and no removal code runs. -/
theorem C10_guard_noop (node : Option FsEntry)
    (h : isDirNode node = false) :
    delete_folder node = node ∧ clear_folder node = node := by
  match node with
  | none => exact ⟨rfl, rfl⟩
  | some (.file n c) => exact ⟨rfl, rfl⟩
  | some (.dir n ch) => simp [isDirNode] at h

/-- C10 witness: the theorem applied to a nonexistent path (the
filesystem holds nothing there). -/
theorem C10_guard_noop_witness :
    isDirNode none = false ∧
    (delete_folder none = none ∧ clear_folder none = none) :=
  ⟨rfl, C10_guard_noop none rfl⟩

/-- C4: extracting a gzip-compressed tarball whose content is exactly one
top-level directory (holding any files) into an empty staging directory
yields the canonical directory `server` holding exactly the same entries,
and the original top-level directory name is no longer listed. -/
theorem C4_targz_roundtrip (name : String) (files : List FsEntry)
    (hname : name ≠ "server") :
    extract_files_targz [] [.dir name files]
      = .ok [.dir "server" files] ∧
    ([FsEntry.dir "server" files].find?
      (fun e => e.entryName = name)) = none := by
  refine ⟨rfl, ?_⟩
  have h2 : "server" ≠ name := Ne.symm hname
  simp [List.find?, FsEntry.entryName, h2]

/-- C4 witness: the theorem applied to the synthetic tarball of the
spec, a
single top-level directory `buildXYZ` holding `a.so` and
`mta-server64`. -/
theorem C4_targz_roundtrip_witness :
    "buildXYZ" ≠ "server" ∧
    (extract_files_targz []
        [.dir "buildXYZ"
          [.file "a.so" "LIBBYTES", .file "mta-server64" "EXEBYTES"]]
      = .ok [.dir "server"
          [.file "a.so" "LIBBYTES", .file "mta-server64" "EXEBYTES"]] ∧
    ([FsEntry.dir "server"
        [.file "a.so" "LIBBYTES", .file "mta-server64" "EXEBYTES"]].find?
      (fun e => e.entryName = "buildXYZ")) = none) :=
  ⟨by decide, C4_targz_roundtrip "buildXYZ"
    [.file "a.so" "LIBBYTES", .file "mta-server64" "EXEBYTES"] (by decide)⟩

/-- C7: installing from an extracted tree holding a new shared library
and a new executable into a target directory that already holds older
versions of both replaces exactly those two files with the new contents
(the old executable being removed before the copy), and every other path
of the target directory — for example `config.xml` — is left with exactly
its previous content: the executable and library files are the only paths
mutated. -/
theorem C7_install_replaces_and_frames
    (binLoc exeName libName oldLib oldExe newLib newExe : String)
    (target : FS)
    (hlib : isLibFile libName = true)
    (hne : ([exeName] : Path) ≠ [binLoc, libName])
    (hold1 : target [binLoc, libName] = some oldLib)
    (hold2 : target [exeName] = some oldExe) :
    ∃ fs2,
      update_server binLoc exeName [.file libName newLib] (some newExe) target
        = .ok fs2 ∧
      fs2 [binLoc, libName] = some newLib ∧
      fs2 [exeName] = some newExe ∧
      ∀ p : Path, p ≠ [exeName] → p ≠ [binLoc, libName] → fs2 p = target p := by
  refine ⟨fsWrite (fsRemoveIfExists
      (fsWrite target [binLoc, libName] newLib) [exeName]) [exeName] newExe,
    ?_, ?_, ?_, ?_⟩
  · simp [update_server, copyLibs, walkFiles, hlib]
  · rw [fsWrite_other _ _ _ _ (Ne.symm hne),
      fsRemoveIfExists_other _ _ _ (Ne.symm hne), fsWrite_same]
  · rw [fsWrite_same]
  · intro p hp1 hp2
    rw [fsWrite_other _ _ _ _ hp1, fsRemoveIfExists_other _ _ _ hp1,
      fsWrite_other _ _ _ _ hp2]

/-- C7 witness: the theorem applied to the concrete target directory,
checking that the unrelated `config.xml` keeps its content. -/
theorem C7_install_replaces_and_frames_witness :
    isLibFile "a.so" = true ∧
    (["mta-server64"] : Path) ≠ ["x64", "a.so"] ∧
    sampleTarget ["x64", "a.so"] = some "OLDLIB" ∧
    sampleTarget ["mta-server64"] = some "OLDEXE" ∧
    (∃ fs2,
      update_server "x64" "mta-server64" [.file "a.so" "NEWLIB"]
          (some "NEWEXE") sampleTarget = .ok fs2 ∧
      fs2 ["x64", "a.so"] = some "NEWLIB" ∧
      fs2 ["mta-server64"] = some "NEWEXE" ∧
      ∀ p : Path, p ≠ ["mta-server64"] → p ≠ ["x64", "a.so"] →
        fs2 p = sampleTarget p) :=
  ⟨by decide, by decide, rfl, rfl,
    C7_install_replaces_and_frames "x64" "mta-server64" "a.so" "OLDLIB"
      "OLDEXE" "NEWLIB" "NEWEXE" sampleTarget (by decide) (by decide) rfl rfl⟩

/-- C3: whenever the pipeline completes fully successfully, exactly one
new line of the fixed format `<now> - Server updated with <artifact file
name> | Python MTA Server Updater` has been appended to the update log
and the staging directory no longer exists; whenever extraction fails,
the staging directory still exists and the log is unchanged — the log
entry is written only on full success. -/
theorem C3_log_only_on_success (env : Env) (w : World) :
    ((runPipeline env w).result = none →
      (runPipeline env w).world.logLines
        = w.logLines ++ [logLine env.now (lastSegment env.artifactUrl)] ∧
      (runPipeline env w).world.updateinfoExists = false) ∧
    ((runPipeline env w).result = some .extractError →
      (runPipeline env w).world.updateinfoExists = true ∧
      (runPipeline env w).world.logLines = w.logLines) := by
  by_cases h1 : 400 ≤ env.downloadStatus <;>
    by_cases h2 : env.downloadIOFails <;>
      by_cases h3 : env.extractFails <;>
        by_cases h4 : env.installFails <;>
          simp [runPipeline, download_file, h1, h2, h3, h4]

/-- C3 witness: the theorem applied to the concrete all-success
environment and to the concrete extraction-failure environment. -/
theorem C3_log_only_on_success_witness :
    ((runPipeline envSuccess world0).result = none ∧
      (runPipeline envSuccess world0).world.logLines
        = world0.logLines
          ++ [logLine envSuccess.now (lastSegment envSuccess.artifactUrl)] ∧
      (runPipeline envSuccess world0).world.updateinfoExists = false) ∧
    ((runPipeline envExtractFail world0).result = some .extractError ∧
      (runPipeline envExtractFail world0).world.updateinfoExists = true ∧
      (runPipeline envExtractFail world0).world.logLines
        = world0.logLines) :=
  ⟨⟨rfl, (C3_log_only_on_success envSuccess world0).1 rfl⟩,
   ⟨rfl, (C3_log_only_on_success envExtractFail world0).2 rfl⟩⟩

/-- C8: on any error-class HTTP status or any streaming I/O fault,
`download_file` fails with the corresponding fetch error, the pipeline
reports that same failure rather than success, and extraction (hence
installation) never runs. -/
theorem C8_failed_download_never_success (env : Env) (w : World)
    (h : 400 ≤ env.downloadStatus ∨ env.downloadIOFails = true) :
    ∃ e, download_file env.downloadStatus env.downloadIOFails env.artifactUrl
        = .error e ∧
      (runPipeline env w).result = some e ∧
      (runPipeline env w).extractRan = false := by
  unfold runPipeline
  rcases h with h | h
  · refine ⟨.downloadHTTPError, ?_⟩
    simp [download_file, h]
  · by_cases hs : 400 ≤ env.downloadStatus
    · refine ⟨.downloadHTTPError, ?_⟩
      simp [download_file, hs]
    · refine ⟨.downloadIOError, ?_⟩
      simp [download_file, hs, h]

/-- C8 witness: the theorem applied to the concrete 404 environment. -/
theorem C8_failed_download_never_success_witness :
    (400 ≤ envDownload404.downloadStatus ∨
      envDownload404.downloadIOFails = true) ∧
    ∃ e, download_file envDownload404.downloadStatus
        envDownload404.downloadIOFails envDownload404.artifactUrl
        = .error e ∧
      (runPipeline envDownload404 world0).result = some e ∧
      (runPipeline envDownload404 world0).extractRan = false :=
  ⟨Or.inl (by decide),
    C8_failed_download_never_success envDownload404 world0
      (Or.inl (by decide))⟩

end Updater
